import Mathlib

/-!
Verification development for the agentic-ai teaching repository.

Python sources are embedded shallowly: pure functions become Lean
functions on `String`/`List Char`/`ℚ`/`ℤ`, stateful objects become
explicit state records, fallible code returns `Except`/`Option`, and
external effects (the tiktoken tokenizer, `json.loads`, `ast.parse`,
LLM responses) are passed in as explicit function parameters so that
the control flow of the repository itself is what is being verified.
-/

/-! ## Python string helpers shared by several modules -/

/-- Python-style truthiness of `os.getenv` results: `None` and the empty
string are falsy, any non-empty string is truthy. -/
def pyTruthy : Option String → Bool
  | none => false
  | some s => !s.isEmpty

/-- Python `str.lower()` on a string (character-wise lowering). -/
def pyLower (s : String) : String :=
  String.mk (s.toList.map Char.toLower)

/-- Does `pre` occur as a prefix of the second list? (helper for `pyIn`). -/
def beginsWith : List Char → List Char → Bool
  | _, [] => true
  | [], _ :: _ => false
  | c :: cs, d :: ds => c == d && beginsWith cs ds

/-- Python substring membership `needle in hay` on character lists:
true iff `needle` occurs contiguously inside `hay`. -/
def pyInList (needle : List Char) : List Char → Bool
  | [] => needle.isEmpty
  | c :: cs => beginsWith (c :: cs) needle || pyInList needle cs

/-- Python `needle in hay` for strings. -/
def pyIn (needle hay : String) : Bool :=
  pyInList needle.toList hay.toList

/-- Worker for `pyWords`: `cur` holds the current word reversed. -/
def pyWordsGo : List Char → List Char → List String
  | cur, [] => if cur.isEmpty then [] else [String.mk cur.reverse]
  | cur, c :: cs =>
    if c.isWhitespace then
      if cur.isEmpty then pyWordsGo [] cs
      else String.mk cur.reverse :: pyWordsGo [] cs
    else pyWordsGo (c :: cur) cs

/-- Python `str.split()` with no argument: split on whitespace runs,
dropping empty pieces. -/
def pyWords (s : String) : List String :=
  pyWordsGo [] s.toList

/-- Python `str.strip()` with no argument: remove leading and trailing
whitespace. -/
def pyStrip (s : String) : String :=
  String.mk (((s.toList.dropWhile Char.isWhitespace).reverse.dropWhile
    Char.isWhitespace).reverse)

namespace CostTracker

/-! ## Embedding of labs/utils/cost_tracker.py — class PriceMeter -/

/-- One `{"input": _, "output": _}` entry of `PriceMeter.PRICING`
(US dollars per 1M tokens), embedded over `ℚ`. -/
structure PriceEntry where
  input : ℚ
  output : ℚ
deriving DecidableEq, Repr

/-- Embedding of `PriceMeter.PRICING`: the static per-provider/per-model price table,
as an association list preserving the insertion order of the source. -/
def PRICING : List (String × List (String × PriceEntry)) :=
  [("openai",
     [("gpt-4o", ⟨2.50, 10.00⟩),
      ("gpt-4o-mini", ⟨0.15, 0.60⟩),
      ("gpt-3.5-turbo", ⟨0.50, 1.50⟩)]),
   ("anthropic",
     [("claude-3-5-sonnet-20241022", ⟨3.00, 15.00⟩),
      ("claude-3-haiku-20240307", ⟨0.25, 1.25⟩),
      ("claude-3-opus-20240229", ⟨15.00, 75.00⟩)]),
   ("google",
     [("gemini-2.0-flash-exp", ⟨0.075, 0.30⟩),
      ("gemini-1.5-pro", ⟨1.25, 5.00⟩),
      ("gemini-1.5-flash", ⟨0.075, 0.30⟩)])]

/-- The breakdown dict appended to `call_history` by `estimate_cost`. -/
structure Breakdown where
  input_tokens : ℕ
  output_tokens : ℕ
  input_cost : ℚ
  output_cost : ℚ
  total_cost : ℚ
  model : String
  provider : String
deriving Repr

/-- The mutable state of a `PriceMeter` instance.  The tiktoken tokenizer
is external code, so it is embedded as an optional token-counting
function (`none` models the `except` branch that sets it to `None`). -/
structure MeterState where
  provider : String
  total_cost : ℚ
  call_history : List Breakdown
  tokenizer : Option (String → ℕ)

/-- Embedding of `PriceMeter.__init__(provider)`: lower-cases the provider, starts with
zero cost and empty history, and keeps whatever tokenizer loaded. -/
def initMeter (provider : String) (tok : Option (String → ℕ)) : MeterState :=
  { provider := pyLower provider
    total_cost := 0
    call_history := []
    tokenizer := tok }

/-- Embedding of `PriceMeter.count_tokens`: real tokenizer when available, otherwise
the `len(text) // 4` character-count approximation. -/
def count_tokens (st : MeterState) (text : String) : ℕ :=
  match st.tokenizer with
  | some f => f text
  | none => text.length / 4

/-- The pricing resolution inside the `try/except` of `estimate_cost`, for
a provider already found in `PRICING`: the entry of the model itself when
present, otherwise the first entry of the table (the unknown-model fallback);
`none` only for an empty table. -/
def resolvePricing (table : List (String × PriceEntry)) (model : String) :
    Option PriceEntry :=
  match table.lookup model with
  | some p => some p
  | none => table.head?.map Prod.snd

/-- Embedding of `PriceMeter.estimate_cost`.  Mirrors the `try/except` of the source:
* provider missing from `PRICING` — the `except KeyError` handler itself
  evaluates `self.PRICING[self.provider]`, which re-raises `KeyError`
  (modelled as `.error`);
* model missing from the table of the provider — fall back to the first
  table entry;
* empty provider table — return `(0.0, {})` without touching the state
  (the `{}` is modelled as `none`).
On the normal path it returns the cost, the breakdown, and the updated
state with `total_cost` accumulated and the breakdown appended. -/
def estimate_cost (st : MeterState) (input_text output_text model : String) :
    Except String (ℚ × Option Breakdown × MeterState) :=
  let input_tokens := count_tokens st input_text
  let output_tokens := count_tokens st output_text
  match PRICING.lookup st.provider with
  | none => .error "KeyError"
  | some table =>
    match resolvePricing table model with
    | none => .ok (0, none, st)
    | some pricing =>
      let input_cost := ((input_tokens : ℚ) / 1000000) * pricing.input
      let output_cost := ((output_tokens : ℚ) / 1000000) * pricing.output
      let total_cost := input_cost + output_cost
      let breakdown : Breakdown :=
        { input_tokens := input_tokens
          output_tokens := output_tokens
          input_cost := input_cost
          output_cost := output_cost
          total_cost := total_cost
          model := model
          provider := st.provider }
      .ok (total_cost, some breakdown,
        { st with
            total_cost := st.total_cost + total_cost
            call_history := st.call_history ++ [breakdown] })

/-- The dict returned by `get_session_summary`.  The empty-history summary
and the normal summary carry different key sets in Python, so the keys
present only on one side are `Option`-valued. -/
structure SessionSummary where
  total_cost : ℚ
  total_calls : ℕ
  avg_cost : Option ℚ
  avg_cost_per_call : Option ℚ
  total_input_tokens : Option ℕ
  total_output_tokens : Option ℕ
  provider : Option String

/-- Embedding of `PriceMeter.get_session_summary`. -/
def get_session_summary (st : MeterState) : SessionSummary :=
  match st.call_history with
  | [] =>
    { total_cost := 0, total_calls := 0, avg_cost := some 0
      avg_cost_per_call := none, total_input_tokens := none
      total_output_tokens := none, provider := none }
  | _ :: _ =>
    { total_cost := st.total_cost
      total_calls := st.call_history.length
      avg_cost := none
      avg_cost_per_call := some (st.total_cost / st.call_history.length)
      total_input_tokens := some (st.call_history.map Breakdown.input_tokens).sum
      total_output_tokens := some (st.call_history.map Breakdown.output_tokens).sum
      provider := some st.provider }

/-- Run a sequence of `estimate_cost` calls, threading the state;
`none` when some call raises. -/
def runCalls (st : MeterState) : List (String × String × String) → Option MeterState
  | [] => some st
  | (i, o, m) :: rest =>
    match estimate_cost st i o m with
    | .error _ => none
    | .ok (_, _, st2) => runCalls st2 rest

end CostTracker

/-- The three fixed tools available to the session-03 agent demos
(`labs/agent_skeleton/tools.TOOLS`). -/
inductive Tool where
  | web_search
  | calculator
  | current_date
deriving DecidableEq, Repr

/-- Extraction of the JSON payload from an LLM response, shared verbatim
by `assess_goal_progress`, `plan` and `reflect`:
`response_text.split("```json")[1].split("```")[0]` when the fence marker
occurs, otherwise the whole response. -/
def extractJson (response_text : String) : String :=
  if pyIn "```json" response_text then
    (((response_text.splitOn "```json").getD 1 "").splitOn "```").getD 0 ""
  else
    response_text

namespace AutoGPT

/-! ## Embedding of demos/demo_autogpt_loop.py — class AutoGPTStyleAgent -/

/-- Embedding of `AutoGPTStyleAgent.estimate_cost`: `len(text) // 4` tokens times the
static Haiku input price `0.25 / 1_000_000` dollars per token. -/
def estimate_cost (text : String) : ℚ :=
  let tokens : ℕ := text.length / 4
  let cost_per_token : ℚ := 0.25 / 1000000
  (tokens : ℚ) * cost_per_token

/-- The assessment dict produced by `assess_goal_progress`. -/
structure Assessment where
  completion_percentage : ℤ
  goal_achieved : Bool
  missing_info : String
  next_priority : String
deriving DecidableEq, Repr

/-- The fixed fallback assessment returned when JSON parsing of the
assessment response fails. -/
def fallbackAssessment : Assessment :=
  { completion_percentage := 25
    goal_achieved := false
    missing_info := "Unable to assess progress"
    next_priority := "Gather more information" }

/-- Embedding of `AutoGPTStyleAgent.assess_goal_progress`, with the LLM call and
`json.loads` abstracted: `response` is the LLM text and `parse` is the
JSON decoder (`none` models `json.JSONDecodeError`).  On parse failure the
broad `except` returns the fixed fallback assessment. -/
def assess_goal_progress (parse : String → Option Assessment)
    (response : String) : Assessment :=
  match parse (extractJson response) with
  | some assessment => assessment
  | none => fallbackAssessment

/-- The tool-selection logic of `AutoGPTStyleAgent.execute_task`:
lower-case the task, then first-match-wins substring checks. -/
def executeTaskTool (task : String) : Tool :=
  let task_lower := pyLower task
  if ["search", "find", "research", "look up"].any
      (fun keyword => pyIn keyword task_lower) then
    Tool.web_search
  else if ["calculate", "compute", "math"].any
      (fun keyword => pyIn keyword task_lower) then
    Tool.calculator
  else if ["date", "time", "current"].any
      (fun keyword => pyIn keyword task_lower) then
    Tool.current_date
  else
    Tool.web_search

/-- The per-iteration external effects of `run_autonomous_loop`: the cost
charged by the `assess_goal_progress` LLM call, the flag
`goal_achieved` of the assessment, and the cost charged by the `generate_next_task`
LLM call (tool execution makes no LLM call). -/
structure IterResp where
  assessCost : ℚ
  goalAchieved : Bool
  genCost : ℚ

/-- The `while iteration < self.max_iterations` loop of
`run_autonomous_loop`, with `fuel` the number of remaining permitted
iterations (`max_iterations - iteration`).  Each pass: increment
`iteration`; break when `estimated_cost > cost_limit`; assess (accruing
cost); break when the assessment reports the goal achieved; generate the
next task (accruing cost) and execute it; continue.  Returns the final
`(iteration, estimated_cost)`. -/
def loopGo (resp : ℕ → IterResp) (cost_limit : ℚ) :
    ℕ → ℕ → ℚ → ℕ × ℚ
  | 0, iteration, cost => (iteration, cost)
  | fuel + 1, iteration, cost =>
    let iteration := iteration + 1
    if cost_limit < cost then (iteration, cost)
    else
      let r := resp iteration
      let cost := cost + r.assessCost
      if r.goalAchieved then (iteration, cost)
      else loopGo resp cost_limit fuel iteration (cost + r.genCost)

/-- The dict returned by `run_autonomous_loop` (the fields the claims
are about). -/
structure LoopResult where
  iterations : ℕ
  estimated_cost : ℚ
  completed : Bool

/-- Embedding of `AutoGPTStyleAgent.run_autonomous_loop`: run the bounded loop from
`iteration = 0` and `estimated_cost = 0.0`, then make one final
`assess_goal_progress` call (`finalResp`) whose cost is accrued and whose
`goal_achieved` flag becomes `completed`. -/
def run_autonomous_loop (resp : ℕ → IterResp) (finalResp : IterResp)
    (max_iterations : ℕ) (cost_limit : ℚ) : LoopResult :=
  let r := loopGo resp cost_limit max_iterations 0 0
  { iterations := r.1
    estimated_cost := r.2 + finalResp.assessCost
    completed := finalResp.goalAchieved }

end AutoGPT

namespace PlanAct

/-! ## Embedding of demos/demo_plan_act_reflect.py — class PlanActReflectAgent -/

/-- The fixed three-step fallback plan returned by `plan` when JSON
parsing of the planning response fails. -/
def fallbackPlan : List String :=
  ["Search for information about the largest cities in Europe",
   "Extract population data for the top 3 cities",
   "Calculate the average of these three populations"]

/-- The plan dict decoded from the planning response; `plan` reads its
`"steps"` key with default `[]`. -/
structure PlanData where
  steps : Option (List String)
deriving DecidableEq, Repr

/-- Embedding of `PlanActReflectAgent.plan`, with the LLM call and `json.loads`
abstracted as for `assess_goal_progress`: on parse failure the broad
`except` returns the fixed fallback plan, otherwise
`plan_data.get("steps", [])`. -/
def plan (parse : String → Option PlanData) (response : String) :
    List String :=
  match parse (extractJson response) with
  | some plan_data => plan_data.steps.getD []
  | none => fallbackPlan

/-- The tool-selection logic of `PlanActReflectAgent.execute_step`:
lower-case the step, then first-match-wins substring checks (note the
keyword sets differ from `execute_task`: "information about", "average",
"sum" and "today" appear here). -/
def executeStepTool (step : String) : Tool :=
  let step_lower := pyLower step
  if ["search", "find", "look up", "information about"].any
      (fun keyword => pyIn keyword step_lower) then
    Tool.web_search
  else if ["calculate", "average", "math", "sum"].any
      (fun keyword => pyIn keyword step_lower) then
    Tool.calculator
  else if ["date", "time", "current", "today"].any
      (fun keyword => pyIn keyword step_lower) then
    Tool.current_date
  else
    Tool.web_search

end PlanAct

namespace ModelClient

/-! ## Embedding of labs/utils/model_client.py — class LLMClient -/

/-- Outcome of `LLMClient.__init__`: either a configured client (provider
and resolved default model) or a raised `ValueError` message.  The
provider SDK constructors (`openai.OpenAI`, `anthropic.Anthropic`,
`genai.configure`) only record the key and raise nothing here. -/
structure Client where
  provider : String
  model : String
deriving DecidableEq, Repr

/-- Embedding of `LLMClient.__init__(provider, model)` over an environment
`env : variable name → value`.  Lower-cases the provider, then checks the
provider-specific API-key variable with Python truthiness (`if not
api_key`), raising `ValueError` when it is unset or empty; an
unrecognised provider also raises `ValueError`. -/
def clientInit (env : String → Option String) (provider : String)
    (model : Option String) : Except String Client :=
  let prov := pyLower provider
  let pyOr := fun (v : Option String) (dflt : String) =>
    if pyTruthy v then v.getD "" else dflt
  if prov = "openai" then
    if !pyTruthy (env "OPENAI_API_KEY") then
      .error "OPENAI_API_KEY environment variable required"
    else
      .ok { provider := prov, model := pyOr model "gpt-4o-mini" }
  else if prov = "anthropic" then
    if !pyTruthy (env "ANTHROPIC_API_KEY") then
      .error "ANTHROPIC_API_KEY environment variable required"
    else
      .ok { provider := prov, model := pyOr model "claude-3-haiku-20240307" }
  else if prov = "google" then
    if !pyTruthy (env "GOOGLE_API_KEY") then
      .error "GOOGLE_API_KEY environment variable required"
    else
      .ok { provider := prov, model := pyOr model "gemini-2.0-flash-exp" }
  else
    .error "Unsupported provider"

end ModelClient

namespace AgentCore

/-! ## Embedding of labs/agent_skeleton/agent_core.py — build_agent -/

/-- The executor configuration `build_agent` returns (the safety limits
set on the `AgentExecutor`). -/
structure AgentConfig where
  model_name : String
  max_iterations : ℕ
  max_execution_time : ℕ
deriving DecidableEq, Repr

/-- Embedding of `build_agent`: raises `ValueError` when `ANTHROPIC_API_KEY` is unset
or empty (Python truthiness of `os.getenv`), before any network call;
otherwise builds the executor with its fixed safety limits. -/
def build_agent (env : String → Option String) (model_name : String) :
    Except String AgentConfig :=
  if !pyTruthy (env "ANTHROPIC_API_KEY") then
    .error "ANTHROPIC_API_KEY environment variable required"
  else
    .ok { model_name := model_name, max_iterations := 10
          max_execution_time := 60 }

end AgentCore

namespace Compute

/-! ## Embedding of agent_swiss_army/tools/compute.py — class SafePythonREPL -/

/-- The nodes of the Python AST that `_is_safe_code` inspects while
walking `ast.walk(tree)`:
* `callName f` — an `ast.Call` whose `func` is `ast.Name(id = f)`;
* `callOther` — an `ast.Call` whose `func` is not a plain name;
* `importPlain ms` — an `ast.Import` with module names `ms`;
* `importFromM m` — an `ast.ImportFrom` with `module = m`
  (`none` for a relative `from . import`);
* `other` — any other node kind. -/
inductive PyNode where
  | callName (f : String)
  | callOther
  | importPlain (names : List String)
  | importFromM (m : Option String)
  | other
deriving DecidableEq, Repr

/-- Embedding of `SafePythonREPL.BLOCKED_FUNCTIONS`. -/
def BLOCKED_FUNCTIONS : List String :=
  ["eval", "exec", "compile", "open", "input", "raw_input",
   "__import__", "globals", "locals", "vars", "dir",
   "getattr", "setattr", "delattr", "hasattr"]

/-- The keys of `SafePythonREPL.ALLOWED_MODULES`. -/
def ALLOWED_MODULES : List String :=
  ["pandas", "numpy", "json", "math", "datetime", "collections", "re"]

/-- The keys of the restricted `__builtins__` dict installed in
the `globals_dict` built by `SafePythonREPL.__init__`. -/
def restrictedBuiltins : List String :=
  ["print", "len", "range", "enumerate", "zip", "map", "filter",
   "sorted", "sum", "min", "max", "abs", "round", "str", "int",
   "float", "bool", "list", "dict", "set", "tuple", "type",
   "isinstance"]

/-- One node passes the per-node checks of `_is_safe_code`. -/
def nodeSafe : PyNode → Bool
  | .callName f => !BLOCKED_FUNCTIONS.contains f
  | .callOther => true
  | .importPlain names => names.all (fun n => ALLOWED_MODULES.contains n)
  | .importFromM m =>
    match m with
    | some s => ALLOWED_MODULES.contains s
    | none => false
  | .other => true

/-- Embedding of `SafePythonREPL._is_safe_code` over an abstract `ast.parse`
(`parse code = none` models `SyntaxError`, `some nodes` the walked node
list): parse failure is unsafe, otherwise every node must pass. -/
def is_safe_code (parse : String → Option (List PyNode)) (code : String) :
    Bool :=
  match parse code with
  | none => false
  | some nodes => nodes.all nodeSafe

/-- Result of `SafePythonREPL.execute`: either one of the fixed message
strings, or actual execution of the code under a globals dict whose
`__builtins__` keys are the given list. -/
inductive ExecResult where
  | msg (s : String)
  | ran (builtins : List String)
deriving DecidableEq, Repr

/-- Embedding of `SafePythonREPL.execute`: strip the code, reject empty input, run the
security check, and only then execute under the restricted globals. -/
def execute (parse : String → Option (List PyNode)) (code : String) :
    ExecResult :=
  let code := pyStrip code
  if code.isEmpty then
    .msg "No code provided"
  else if !is_safe_code parse code then
    .msg "Error: Code contains unsafe operations"
  else
    .ran restrictedBuiltins

end Compute

namespace RunEval

/-! ## Embedding of labs/eval/run_eval.py — calculate_quality_score -/

/-- The `key_terms` list of `calculate_quality_score`. -/
def key_terms : List String :=
  ["AI", "bank", "customer", "service", "cost", "reduction"]

/-- Embedding of `calculate_quality_score(output, pattern)` with `json.loads` validity
abstracted as `jsonValid` (Python scores over ints here; only the final
`return min(score, 100)` caps it).  Scoring, in source order: +20 for a
bullet character or hyphen; +20 for 30–100 words else +10 for ≤150
words; up to +25 for key-term hits (5 each); for pattern `"json"` +25
when the output parses as JSON and −20 when it does not; +10 for exactly
3 bullet marks else +5 for any. -/
def calculate_quality_score (jsonValid : String → Bool)
    (output : String) (pat : String) : ℤ :=
  let score : ℤ := 0
  let score := if pyIn "•" output || pyIn "-" output then score + 20 else score
  let word_count := (pyWords output).length
  let score :=
    if 30 ≤ word_count ∧ word_count ≤ 100 then score + 20
    else if word_count ≤ 150 then score + 10
    else score
  let found_terms : ℤ :=
    ((key_terms.filter (fun term => pyIn (pyLower term) (pyLower output))).length : ℤ)
  let score := score + min (found_terms * 5) 25
  let score :=
    if pat = "json" then
      if jsonValid output then score + 25 else score - 20
    else score
  let bullet_count := output.toList.count '•' + output.toList.count '-'
  let score :=
    if bullet_count = 3 then score + 10
    else if 0 < bullet_count then score + 5
    else score
  min score 100

/-- A 151-word output with no bullets, no hyphens and no key-term
substrings: `"zz zz ... zz"`. -/
def longPlainOutput : String :=
  String.intercalate " " (List.replicate 151 "zz")

end RunEval

/-- The dispatch keywords as the specification enumerates them (search:
"search", "find", "research", "look up"; calculator: "calculate",
"compute", "average", "math"; date: "date", "time", "current"), taking
the union of the variants it lists for the two demo files.  Used to
compare the description in the spec with the keyword sets in the code. -/
def claimedDispatchKeywords : List String :=
  ["search", "find", "research", "look up",
   "calculate", "compute", "average", "math",
   "date", "time", "current"]

namespace CostTracker

/-- The cost component of a non-raising `estimate_cost` call (0 for a
raised call; used only together with `Except.isOk`). -/
def okCost : Except String (ℚ × Option Breakdown × MeterState) → ℚ
  | .ok (c, _) => c
  | .error _ => 0

/-- The session-accounting invariant of claim C9 for the state reached by
a sequence of `estimate_cost` calls (vacuous when some call raised):
`total_cost` is the sum of the `total_cost` fields of the recorded breakdowns,
the history length is the number of calls, and `get_session_summary`
reports exactly these values. -/
def accountingOk (calls : List (String × String × String)) :
    Option MeterState → Prop
  | none => True
  | some st =>
    st.total_cost = (st.call_history.map Breakdown.total_cost).sum ∧
    st.call_history.length = calls.length ∧
    (get_session_summary st).total_cost = st.total_cost ∧
    (get_session_summary st).total_calls = st.call_history.length

end CostTracker

/-! ## Theorems -/

section Helpers

/-- A value produced by an association-list lookup is one of the values
stored in the list. -/
theorem lookup_val_mem {β : Type} {l : List (String × β)} {a : String}
    {b : β} (h : l.lookup a = some b) : b ∈ l.map Prod.snd := by
  induction l with
  | nil => simp [List.lookup] at h
  | cons hd tl ih =>
    rw [List.lookup] at h
    by_cases hc : (a == hd.1) = true
    · simp [hc] at h
      simp [← h]
    · simp [hc] at h
      simp [ih h]

/-- Every price table reachable by looking a provider up in `PRICING` is
non-empty and has non-negative input and output prices. -/
theorem PRICING_lookup_props {prov : String}
    {table : List (String × CostTracker.PriceEntry)}
    (h : CostTracker.PRICING.lookup prov = some table) :
    table ≠ [] ∧
      ∀ p ∈ table.map Prod.snd, 0 ≤ p.input ∧ 0 ≤ p.output := by
  have hmem := lookup_val_mem h
  simp only [CostTracker.PRICING, List.map] at hmem
  fin_cases hmem <;>
    refine ⟨by simp, ?_⟩ <;>
    · intro p hp
      fin_cases hp <;> constructor <;> norm_num

end Helpers


/-- C2: when no real tokenizer is available (`tokenizer` is `None`),
`PriceMeter.count_tokens` returns `len(text) // 4`, and
`AutoGPTStyleAgent.estimate_cost` computes `len(text) // 4` tokens times
the static Haiku per-token price `0.25 / 1_000_000`. -/
theorem count_tokens_char_div_four (st : CostTracker.MeterState)
    (text : String) (h : st.tokenizer = none) :
    CostTracker.count_tokens st text = text.length / 4 ∧
      AutoGPT.estimate_cost text =
        ((text.length / 4 : ℕ) : ℚ) * (0.25 / 1000000) := by
  refine ⟨?_, rfl⟩
  unfold CostTracker.count_tokens
  rw [h]

/-- Witness for C2 at a concrete meter without tokenizer and a concrete
8-character text. -/
theorem count_tokens_char_div_four_witness :
    CostTracker.count_tokens (CostTracker.initMeter "openai" none)
        "abcdefgh" = "abcdefgh".length / 4 ∧
      AutoGPT.estimate_cost "abcdefgh" =
        (("abcdefgh".length / 4 : ℕ) : ℚ) * (0.25 / 1000000) :=
  count_tokens_char_div_four (CostTracker.initMeter "openai" none)
    "abcdefgh" rfl

/-- C6: when the JSON extracted from the model response fails to parse,
`assess_goal_progress` returns the fixed fallback assessment (completion
25%, `goal_achieved` false) and `plan` returns the fixed three-step
fallback plan; neither propagates the exception. -/
theorem malformed_json_reported_not_raised
    (parseA : String → Option AutoGPT.Assessment)
    (parseP : String → Option PlanAct.PlanData) (response : String)
    (hA : parseA (extractJson response) = none)
    (hP : parseP (extractJson response) = none) :
    AutoGPT.assess_goal_progress parseA response =
        AutoGPT.fallbackAssessment ∧
      PlanAct.plan parseP response = PlanAct.fallbackPlan := by
  unfold AutoGPT.assess_goal_progress PlanAct.plan
  rw [hA, hP]
  exact ⟨rfl, rfl⟩

/-- Witness for C6 with a decoder that rejects every string. -/
theorem malformed_json_reported_not_raised_witness :
    AutoGPT.assess_goal_progress (fun _ => none) "not json at all" =
        AutoGPT.fallbackAssessment ∧
      PlanAct.plan (fun _ => none) "not json at all" =
        PlanAct.fallbackPlan :=
  malformed_json_reported_not_raised (fun _ => none) (fun _ => none)
    "not json at all" rfl rfl

/-- C7: `LLMClient.__init__` with provider "openai"/"anthropic"/"google"
succeeds exactly when the corresponding API-key environment variable is
set and non-empty (otherwise it raises `ValueError`), and `build_agent`
succeeds exactly when `ANTHROPIC_API_KEY` is set and non-empty — all
before any network call, since only the environment is consulted. -/
theorem api_key_absence_raises (env : String → Option String)
    (model : Option String) (model_name : String) :
    (ModelClient.clientInit env "openai" model).isOk =
        pyTruthy (env "OPENAI_API_KEY") ∧
      (ModelClient.clientInit env "anthropic" model).isOk =
        pyTruthy (env "ANTHROPIC_API_KEY") ∧
      (ModelClient.clientInit env "google" model).isOk =
        pyTruthy (env "GOOGLE_API_KEY") ∧
      (AgentCore.build_agent env model_name).isOk =
        pyTruthy (env "ANTHROPIC_API_KEY") := by
  have h1 : pyLower "openai" = "openai" := by decide
  have h2 : pyLower "anthropic" = "anthropic" := by decide
  have h3 : pyLower "google" = "google" := by decide
  refine ⟨?_, ?_, ?_, ?_⟩ <;>
    simp only [ModelClient.clientInit, AgentCore.build_agent, h1, h2, h3] <;>
    [cases pyTruthy (env "OPENAI_API_KEY");
     cases pyTruthy (env "ANTHROPIC_API_KEY");
     cases pyTruthy (env "GOOGLE_API_KEY");
     cases pyTruthy (env "ANTHROPIC_API_KEY")] <;>
    simp [Except.isOk, Except.toBool]

/-- C8: for non-empty stripped code, `SafePythonREPL.execute` returns the
fixed string "Error: Code contains unsafe operations" — without running
the code — whenever the AST fails to parse, contains a direct call to a
name in `BLOCKED_FUNCTIONS`, or imports a module outside
`ALLOWED_MODULES`; code passing the check is executed under the
restricted builtins dictionary. -/
theorem sandbox_allowlist_filter
    (parse : String → Option (List Compute.PyNode)) (code : String)
    (hne : (pyStrip code).isEmpty = false) :
    (parse (pyStrip code) = none →
      Compute.execute parse code =
        Compute.ExecResult.msg "Error: Code contains unsafe operations") ∧
    (∀ nodes, parse (pyStrip code) = some nodes →
      (∃ n ∈ nodes,
          (∃ f, n = Compute.PyNode.callName f ∧
            f ∈ Compute.BLOCKED_FUNCTIONS) ∨
          (∃ names, n = Compute.PyNode.importPlain names ∧
            ∃ m ∈ names, m ∉ Compute.ALLOWED_MODULES) ∨
          (∃ m, n = Compute.PyNode.importFromM m ∧
            ∀ s, m = some s → s ∉ Compute.ALLOWED_MODULES)) →
      Compute.execute parse code =
        Compute.ExecResult.msg "Error: Code contains unsafe operations") ∧
    (∀ nodes, parse (pyStrip code) = some nodes →
      (∀ n ∈ nodes, Compute.nodeSafe n = true) →
      Compute.execute parse code =
        Compute.ExecResult.ran Compute.restrictedBuiltins) := by
  refine ⟨?_, ?_, ?_⟩
  · intro hp
    simp [Compute.execute, Compute.is_safe_code, hne, hp]
  · intro nodes hp hbad
    obtain ⟨n, hn, hcase⟩ := hbad
    have hbadNode : Compute.nodeSafe n = false := by
      rcases hcase with ⟨f, rfl, hf⟩ | ⟨names, rfl, m, hm, hmem⟩ | ⟨m, rfl, hm⟩
      · simp [Compute.nodeSafe, hf]
      · show (names.all fun x => Compute.ALLOWED_MODULES.contains x) = false
        rw [List.all_eq_false]
        exact ⟨m, hm, by simpa using hmem⟩
      · cases m with
        | none => rfl
        | some s =>
          simp [Compute.nodeSafe]
          simpa using hm s rfl
    have hall : nodes.all Compute.nodeSafe = false := by
      rw [List.all_eq_false]
      exact ⟨n, hn, by simp [hbadNode]⟩
    simp [Compute.execute, Compute.is_safe_code, hne, hp, hall]
  · intro nodes hp hgood
    have hall : nodes.all Compute.nodeSafe = true := List.all_eq_true.mpr hgood
    simp [Compute.execute, Compute.is_safe_code, hne, hp, hall]

/-- Witness for C8: a parse result whose only node is a direct call to
`eval` is rejected with the fixed error message. -/
theorem sandbox_allowlist_filter_witness :
    Compute.execute (fun _ => some [Compute.PyNode.callName "eval"])
        "  eval(1) " =
      Compute.ExecResult.msg "Error: Code contains unsafe operations" :=
  (sandbox_allowlist_filter (fun _ => some [Compute.PyNode.callName "eval"])
      "  eval(1) " (by decide)).2.1
    [Compute.PyNode.callName "eval"] rfl
    ⟨Compute.PyNode.callName "eval", by decide, Or.inl ⟨"eval", rfl, by decide⟩⟩

set_option maxRecDepth 40000 in
/-- C10: `calculate_quality_score` never exceeds 100 (the final
`min(score, 100)` cap), but it is not bounded below by 0: on a 151-word
output with no bullets, no hyphens, no key terms, pattern "json" and
invalid JSON, it returns -20. -/
theorem quality_score_capped_not_nonneg :
    (∀ (jsonValid : String → Bool) (output pat : String),
        RunEval.calculate_quality_score jsonValid output pat ≤ 100) ∧
      RunEval.calculate_quality_score (fun _ => false)
        RunEval.longPlainOutput "json" = -20 := by
  constructor
  · intro jsonValid output pat
    exact min_le_right _ _
  · decide

/-- C4 counterexample: the step "sum the values" contains none of the
keywords the claim enumerates for the dispatch heuristic, so the claim
predicts the web_search default, yet `PlanActReflectAgent.execute_step`
dispatches it to the calculator (its keyword list also contains "sum"). -/
theorem tool_dispatch_claim_counterexample :
    (claimedDispatchKeywords.all
        (fun kw => !pyIn kw (pyLower "sum the values"))) = true ∧
      PlanAct.executeStepTool "sum the values" = Tool.calculator := by
  decide

/-- C4 (amended): both dispatchers lower-case the task and pick exactly
one of the three fixed tools by first-match-wins substring checks,
defaulting to web_search when no keyword occurs — with the actual
keyword sets of the code: `execute_task` uses search {"search","find","research",
"look up"}, calculator {"calculate","compute","math"}, date
{"date","time","current"}; `execute_step` uses search {"search","find",
"look up","information about"}, calculator {"calculate","average",
"math","sum"}, date {"date","time","current","today"}. -/
theorem tool_dispatch_first_match (task : String) :
    ((["search", "find", "research", "look up"].any
        (fun kw => pyIn kw (pyLower task))) = true →
      AutoGPT.executeTaskTool task = Tool.web_search) ∧
    ((["search", "find", "research", "look up"].any
        (fun kw => pyIn kw (pyLower task))) = false →
      (["calculate", "compute", "math"].any
        (fun kw => pyIn kw (pyLower task))) = true →
      AutoGPT.executeTaskTool task = Tool.calculator) ∧
    ((["search", "find", "research", "look up"].any
        (fun kw => pyIn kw (pyLower task))) = false →
      (["calculate", "compute", "math"].any
        (fun kw => pyIn kw (pyLower task))) = false →
      (["date", "time", "current"].any
        (fun kw => pyIn kw (pyLower task))) = true →
      AutoGPT.executeTaskTool task = Tool.current_date) ∧
    ((["search", "find", "research", "look up"].any
        (fun kw => pyIn kw (pyLower task))) = false →
      (["calculate", "compute", "math"].any
        (fun kw => pyIn kw (pyLower task))) = false →
      (["date", "time", "current"].any
        (fun kw => pyIn kw (pyLower task))) = false →
      AutoGPT.executeTaskTool task = Tool.web_search) ∧
    ((["search", "find", "look up", "information about"].any
        (fun kw => pyIn kw (pyLower task))) = true →
      PlanAct.executeStepTool task = Tool.web_search) ∧
    ((["search", "find", "look up", "information about"].any
        (fun kw => pyIn kw (pyLower task))) = false →
      (["calculate", "average", "math", "sum"].any
        (fun kw => pyIn kw (pyLower task))) = true →
      PlanAct.executeStepTool task = Tool.calculator) ∧
    ((["search", "find", "look up", "information about"].any
        (fun kw => pyIn kw (pyLower task))) = false →
      (["calculate", "average", "math", "sum"].any
        (fun kw => pyIn kw (pyLower task))) = false →
      (["date", "time", "current", "today"].any
        (fun kw => pyIn kw (pyLower task))) = true →
      PlanAct.executeStepTool task = Tool.current_date) ∧
    ((["search", "find", "look up", "information about"].any
        (fun kw => pyIn kw (pyLower task))) = false →
      (["calculate", "average", "math", "sum"].any
        (fun kw => pyIn kw (pyLower task))) = false →
      (["date", "time", "current", "today"].any
        (fun kw => pyIn kw (pyLower task))) = false →
      PlanAct.executeStepTool task = Tool.web_search) := by
  refine ⟨?_, ?_, ?_, ?_, ?_, ?_, ?_, ?_⟩ <;>
    intros <;>
    simp_all [AutoGPT.executeTaskTool, PlanAct.executeStepTool]

/-- Witness for C4 (amended): concrete tasks hitting the calculator and
date branches of the two dispatchers. -/
theorem tool_dispatch_first_match_witness :
    AutoGPT.executeTaskTool "compute 2 plus 2" = Tool.calculator ∧
      PlanAct.executeStepTool "what day is it now, this instant" =
        Tool.web_search :=
  ⟨(tool_dispatch_first_match "compute 2 plus 2").2.1 (by decide) (by decide),
   (tool_dispatch_first_match "what day is it now, this instant").2.2.2.2.2.2.2
     (by decide) (by decide) (by decide)⟩

/-- The iteration counter returned by the Auto-GPT loop body grows by at
most the remaining fuel. -/
theorem loopGo_fst_le (resp : ℕ → AutoGPT.IterResp) (cost_limit : ℚ) :
    ∀ (fuel iteration : ℕ) (cost : ℚ),
      (AutoGPT.loopGo resp cost_limit fuel iteration cost).1 ≤
        iteration + fuel := by
  intro fuel
  induction fuel with
  | zero => intro iteration cost; simp [AutoGPT.loopGo]
  | succ n ih =>
    intro iteration cost
    unfold AutoGPT.loopGo
    by_cases hc : cost_limit < cost
    · simp only [hc, if_true]
      omega
    · simp only [hc, if_false]
      by_cases hg : (resp (iteration + 1)).goalAchieved
      · simp only [hg, if_true]
        omega
      · simp only [hg, if_false]
        calc (AutoGPT.loopGo resp cost_limit n (iteration + 1)
                (cost + (resp (iteration + 1)).assessCost +
                  (resp (iteration + 1)).genCost)).1
            ≤ (iteration + 1) + n := ih _ _
          _ = iteration + (n + 1) := by omega

/-- C5: `run_autonomous_loop` terminates for every goal — the loop body
runs at most `max_iterations` times and the returned `iterations` field
never exceeds `max_iterations`; moreover the loop exits in its first
iteration when the budget check already fails at the start
(`estimated_cost = 0 > cost_limit`), and likewise when the first
assessment reports `goal_achieved`. -/
theorem autogpt_loop_terminates (resp : ℕ → AutoGPT.IterResp)
    (finalResp : AutoGPT.IterResp) (max_iterations : ℕ) (cost_limit : ℚ) :
    (AutoGPT.run_autonomous_loop resp finalResp max_iterations
        cost_limit).iterations ≤ max_iterations ∧
    (0 < max_iterations → cost_limit < 0 →
      (AutoGPT.run_autonomous_loop resp finalResp max_iterations
        cost_limit).iterations = 1) ∧
    (0 < max_iterations → ¬cost_limit < 0 →
      (resp 1).goalAchieved = true →
      (AutoGPT.run_autonomous_loop resp finalResp max_iterations
        cost_limit).iterations = 1) := by
  refine ⟨?_, ?_, ?_⟩
  · have h := loopGo_fst_le resp cost_limit max_iterations 0 0
    simpa [AutoGPT.run_autonomous_loop] using h
  · intro hpos hneg
    obtain ⟨n, rfl⟩ : ∃ n, max_iterations = n + 1 :=
      ⟨max_iterations - 1, by omega⟩
    simp [AutoGPT.run_autonomous_loop, AutoGPT.loopGo, hneg]
  · intro hpos hnneg hgoal
    obtain ⟨n, rfl⟩ : ∃ n, max_iterations = n + 1 :=
      ⟨max_iterations - 1, by omega⟩
    simp [AutoGPT.run_autonomous_loop, AutoGPT.loopGo, hnneg, hgoal]

/-- Witness for C5 with a first assessment that reports the goal
achieved, a positive budget and five permitted iterations. -/
theorem autogpt_loop_terminates_witness :
    (AutoGPT.run_autonomous_loop (fun _ => ⟨0, true, 0⟩) ⟨0, false, 0⟩
        5 1).iterations ≤ 5 ∧
      (AutoGPT.run_autonomous_loop (fun _ => ⟨0, true, 0⟩) ⟨0, false, 0⟩
        5 1).iterations = 1 :=
  ⟨(autogpt_loop_terminates (fun _ => ⟨0, true, 0⟩) ⟨0, false, 0⟩ 5 1).1,
   (autogpt_loop_terminates (fun _ => ⟨0, true, 0⟩) ⟨0, false, 0⟩ 5 1).2.2
     (by decide) (by decide) rfl⟩

/-- For a non-empty table, pricing resolution always succeeds and yields
one of the price entries of the table. -/
theorem resolvePricing_mem (table : List (String × CostTracker.PriceEntry))
    (m : String) (hne : table ≠ []) :
    ∃ p, CostTracker.resolvePricing table m = some p ∧
      p ∈ table.map Prod.snd := by
  cases hl : table.lookup m with
  | some q =>
    exact ⟨q, by rw [CostTracker.resolvePricing, hl], lookup_val_mem hl⟩
  | none =>
    cases table with
    | nil => exact absurd rfl hne
    | cons hd tl =>
      exact ⟨hd.2, by rw [CostTracker.resolvePricing, hl]; rfl, by simp⟩

/-- Canonical form of a successful `estimate_cost` call: once the
provider table and the resolved price entry are fixed, the returned
cost, breakdown and updated state are exactly these. -/
theorem estimate_cost_ok_eq (st : CostTracker.MeterState)
    (i o m : String) (table : List (String × CostTracker.PriceEntry))
    (p : CostTracker.PriceEntry)
    (h : CostTracker.PRICING.lookup st.provider = some table)
    (hp : CostTracker.resolvePricing table m = some p) :
    CostTracker.estimate_cost st i o m = .ok
      (((CostTracker.count_tokens st i : ℚ) / 1000000) * p.input +
         ((CostTracker.count_tokens st o : ℚ) / 1000000) * p.output,
       some
         { input_tokens := CostTracker.count_tokens st i
           output_tokens := CostTracker.count_tokens st o
           input_cost :=
             ((CostTracker.count_tokens st i : ℚ) / 1000000) * p.input
           output_cost :=
             ((CostTracker.count_tokens st o : ℚ) / 1000000) * p.output
           total_cost :=
             ((CostTracker.count_tokens st i : ℚ) / 1000000) * p.input +
               ((CostTracker.count_tokens st o : ℚ) / 1000000) * p.output
           model := m
           provider := st.provider },
       { st with
           total_cost := st.total_cost +
             (((CostTracker.count_tokens st i : ℚ) / 1000000) * p.input +
               ((CostTracker.count_tokens st o : ℚ) / 1000000) * p.output)
           call_history := st.call_history ++
             [{ input_tokens := CostTracker.count_tokens st i
                output_tokens := CostTracker.count_tokens st o
                input_cost :=
                  ((CostTracker.count_tokens st i : ℚ) / 1000000) * p.input
                output_cost :=
                  ((CostTracker.count_tokens st o : ℚ) / 1000000) * p.output
                total_cost :=
                  ((CostTracker.count_tokens st i : ℚ) / 1000000) * p.input +
                    ((CostTracker.count_tokens st o : ℚ) / 1000000) *
                      p.output
                model := m
                provider := st.provider }] }) := by
  simp only [CostTracker.estimate_cost, h, hp]

/-- C1: for a provider present in `PRICING`, `estimate_cost` succeeds for
every model name, the returned cost is non-negative, and — holding the
price table, tokenizer, provider and model fixed — the cost is
monotonically non-decreasing in the input token count and in the output
token count: more tokens never yield a smaller cost. -/
theorem estimate_cost_nonneg_monotone (st : CostTracker.MeterState)
    (table : List (String × CostTracker.PriceEntry))
    (h : CostTracker.PRICING.lookup st.provider = some table)
    (in1 out1 in2 out2 model : String)
    (hin : CostTracker.count_tokens st in1 ≤ CostTracker.count_tokens st in2)
    (hout :
      CostTracker.count_tokens st out1 ≤ CostTracker.count_tokens st out2) :
    (CostTracker.estimate_cost st in1 out1 model).isOk = true ∧
    (CostTracker.estimate_cost st in2 out2 model).isOk = true ∧
    0 ≤ CostTracker.okCost (CostTracker.estimate_cost st in1 out1 model) ∧
    CostTracker.okCost (CostTracker.estimate_cost st in1 out1 model) ≤
      CostTracker.okCost (CostTracker.estimate_cost st in2 out2 model) := by
  obtain ⟨hne, hnn⟩ := PRICING_lookup_props h
  obtain ⟨p, hp, hmem⟩ := resolvePricing_mem table model hne
  obtain ⟨hpi, hpo⟩ := hnn p hmem
  rw [estimate_cost_ok_eq st in1 out1 model table p h hp,
    estimate_cost_ok_eq st in2 out2 model table p h hp]
  refine ⟨rfl, rfl, ?_, ?_⟩
  · show (0:ℚ) ≤ _
    have t1 : (0:ℚ) ≤ (CostTracker.count_tokens st in1 : ℚ) / 1000000 := by
      positivity
    have t2 : (0:ℚ) ≤ (CostTracker.count_tokens st out1 : ℚ) / 1000000 := by
      positivity
    exact add_nonneg (mul_nonneg t1 hpi) (mul_nonneg t2 hpo)
  · show (_ : ℚ) ≤ _
    have hin' : ((CostTracker.count_tokens st in1 : ℚ)) ≤
        (CostTracker.count_tokens st in2 : ℚ) := by exact_mod_cast hin
    have hout' : ((CostTracker.count_tokens st out1 : ℚ)) ≤
        (CostTracker.count_tokens st out2 : ℚ) := by exact_mod_cast hout
    have d1 : (CostTracker.count_tokens st in1 : ℚ) / 1000000 ≤
        (CostTracker.count_tokens st in2 : ℚ) / 1000000 := by
      apply div_le_div_of_nonneg_right hin'; norm_num
    have d2 : (CostTracker.count_tokens st out1 : ℚ) / 1000000 ≤
        (CostTracker.count_tokens st out2 : ℚ) / 1000000 := by
      apply div_le_div_of_nonneg_right hout'; norm_num
    exact add_le_add (mul_le_mul_of_nonneg_right d1 hpi)
      (mul_le_mul_of_nonneg_right d2 hpo)

/-- Witness for C1: the "openai" price table with a 1-token input growing
to 2 tokens and a 2-token output growing to 3 tokens. -/
theorem estimate_cost_nonneg_monotone_witness :
    (CostTracker.estimate_cost (CostTracker.initMeter "openai" none)
        "aaaa" "bbbbbbbb" "gpt-4o").isOk = true ∧
    (CostTracker.estimate_cost (CostTracker.initMeter "openai" none)
        "aaaaaaaa" "bbbbbbbbbbbb" "gpt-4o").isOk = true ∧
    0 ≤ CostTracker.okCost (CostTracker.estimate_cost
        (CostTracker.initMeter "openai" none) "aaaa" "bbbbbbbb" "gpt-4o") ∧
    CostTracker.okCost (CostTracker.estimate_cost
        (CostTracker.initMeter "openai" none) "aaaa" "bbbbbbbb" "gpt-4o") ≤
      CostTracker.okCost (CostTracker.estimate_cost
        (CostTracker.initMeter "openai" none) "aaaaaaaa" "bbbbbbbbbbbb"
        "gpt-4o") :=
  estimate_cost_nonneg_monotone (CostTracker.initMeter "openai" none)
    [("gpt-4o", ⟨2.50, 10.00⟩), ("gpt-4o-mini", ⟨0.15, 0.60⟩),
     ("gpt-3.5-turbo", ⟨0.50, 1.50⟩)]
    rfl "aaaa" "bbbbbbbb" "aaaaaaaa" "bbbbbbbbbbbb" "gpt-4o"
    (by decide) (by decide)

/-- C3: for a provider present in `PRICING` and a model name absent from
the table of that provider, `estimate_cost` does not raise: it succeeds,
and the returned cost is computed from the first entry of the provider
table.  (The accompanying `print` warning is console output and is not
part of the functional model.) -/
theorem unknown_model_falls_back (st : CostTracker.MeterState)
    (table : List (String × CostTracker.PriceEntry)) (i o model : String)
    (h : CostTracker.PRICING.lookup st.provider = some table)
    (hm : table.lookup model = none) :
    (CostTracker.estimate_cost st i o model).isOk = true ∧
    ∀ first rest, table = first :: rest →
      CostTracker.okCost (CostTracker.estimate_cost st i o model) =
        ((CostTracker.count_tokens st i : ℚ) / 1000000) * first.2.input +
          ((CostTracker.count_tokens st o : ℚ) / 1000000) * first.2.output := by
  obtain ⟨hne, _⟩ := PRICING_lookup_props h
  obtain ⟨p, hp, _⟩ := resolvePricing_mem table model hne
  constructor
  · rw [estimate_cost_ok_eq st i o model table p h hp]
    rfl
  · intro first rest hTable
    subst hTable
    have hp' : CostTracker.resolvePricing (first :: rest) model =
        some first.2 := by
      rw [CostTracker.resolvePricing, hm]
      rfl
    rw [estimate_cost_ok_eq st i o model (first :: rest) first.2 h hp']
    rfl

/-- Witness for C3: the unknown model "gpt-99" over the "openai" table
falls back to the pricing of the "gpt-4o" entry. -/
theorem unknown_model_falls_back_witness :
    (CostTracker.estimate_cost (CostTracker.initMeter "openai" none)
        "aaaa" "bbbbbbbb" "gpt-99").isOk = true ∧
    CostTracker.okCost (CostTracker.estimate_cost
        (CostTracker.initMeter "openai" none) "aaaa" "bbbbbbbb" "gpt-99") =
      ((CostTracker.count_tokens (CostTracker.initMeter "openai" none)
          "aaaa" : ℚ) / 1000000) * (2.50 : ℚ) +
        ((CostTracker.count_tokens (CostTracker.initMeter "openai" none)
          "bbbbbbbb" : ℚ) / 1000000) * (10.00 : ℚ) :=
  have h := unknown_model_falls_back (CostTracker.initMeter "openai" none)
    [("gpt-4o", ⟨2.50, 10.00⟩), ("gpt-4o-mini", ⟨0.15, 0.60⟩),
     ("gpt-3.5-turbo", ⟨0.50, 1.50⟩)]
    "aaaa" "bbbbbbbb" "gpt-99" rfl rfl
  ⟨h.1, h.2 ("gpt-4o", ⟨2.50, 10.00⟩)
    [("gpt-4o-mini", ⟨0.15, 0.60⟩), ("gpt-3.5-turbo", ⟨0.50, 1.50⟩)] rfl⟩

/-- A successful `estimate_cost` call implies the provider is a key of
`PRICING`. -/
theorem estimate_cost_ok_inv (st : CostTracker.MeterState)
    (i o m : String) (res : ℚ × Option CostTracker.Breakdown ×
      CostTracker.MeterState)
    (h : CostTracker.estimate_cost st i o m = .ok res) :
    ∃ table, CostTracker.PRICING.lookup st.provider = some table := by
  cases hl : CostTracker.PRICING.lookup st.provider with
  | some table => exact ⟨table, rfl⟩
  | none =>
    rw [CostTracker.estimate_cost] at h
    simp only [hl] at h
    cases h

/-- The accounting invariant is preserved along any successful sequence
of `estimate_cost` calls, and each call appends exactly one history
entry. -/
theorem runCalls_accounting :
    ∀ (calls : List (String × String × String))
      (st : CostTracker.MeterState),
      st.total_cost =
        (st.call_history.map CostTracker.Breakdown.total_cost).sum →
      ∀ st2, CostTracker.runCalls st calls = some st2 →
        st2.total_cost =
            (st2.call_history.map CostTracker.Breakdown.total_cost).sum ∧
          st2.call_history.length =
            st.call_history.length + calls.length := by
  intro calls
  induction calls with
  | nil =>
    intro st hinv st2 h
    rw [CostTracker.runCalls] at h
    injection h with h
    subst h
    exact ⟨hinv, by simp⟩
  | cons c rest ih =>
    intro st hinv st2 h
    obtain ⟨i, o, m⟩ := c
    rw [CostTracker.runCalls] at h
    cases he : CostTracker.estimate_cost st i o m with
    | error e => rw [he] at h; cases h
    | ok res =>
      rw [he] at h
      obtain ⟨table, hl⟩ := estimate_cost_ok_inv st i o m res he
      obtain ⟨hne, _⟩ := PRICING_lookup_props hl
      obtain ⟨p, hp, _⟩ := resolvePricing_mem table m hne
      rw [estimate_cost_ok_eq st i o m table p hl hp] at he
      injection he with he
      subst he
      obtain ⟨H1, H2⟩ := ih _ (by simp [hinv]) st2 h
      refine ⟨H1, ?_⟩
      rw [H2]
      simp
      omega

/-- C9: after any sequence of successful `estimate_cost` calls on a
freshly constructed `PriceMeter`, `total_cost` equals the sum of the
`total_cost` fields of the `call_history` entries, the history length
equals the number of calls, and `get_session_summary` reports exactly
these values (with the zero summary for an empty history). -/
theorem meter_session_accounting (provider : String)
    (tok : Option (String → ℕ))
    (calls : List (String × String × String)) :
    CostTracker.accountingOk calls
      (CostTracker.runCalls (CostTracker.initMeter provider tok) calls) := by
  cases hr : CostTracker.runCalls (CostTracker.initMeter provider tok)
      calls with
  | none => exact trivial
  | some st2 =>
    obtain ⟨H1, H2⟩ := runCalls_accounting calls
      (CostTracker.initMeter provider tok) (by simp [CostTracker.initMeter])
      st2 hr
    refine ⟨H1, by simpa [CostTracker.initMeter] using H2, ?_, ?_⟩
    · cases hc : st2.call_history with
      | nil =>
        have hz : st2.total_cost = 0 := by
          rw [H1, hc]
          simp
        simp [CostTracker.get_session_summary, hc, hz]
      | cons b bs =>
        simp [CostTracker.get_session_summary, hc]
    · cases hc : st2.call_history with
      | nil => simp [CostTracker.get_session_summary, hc]
      | cons b bs =>
        simp [CostTracker.get_session_summary, hc]
